import Mathlib

/-!
Verification development for the MedMatchAI eligibility matching engine.

The Python sources under scrutiny are `app/utils.py` (functions `match_trials`,
`check_criterion_match`) and `app/routes.py` (functions `match_trials_db` and a
second, richer `check_criterion_match` that shadows the one from `app/utils.py`
inside that module).  Both evaluators are embedded below as pure Lean
functions, together with the aggregation and ranking code that consumes them.

Modelling conventions:
* Python strings are Lean `String`s; `str.lower()` is `asciiLower` (all the
  texts handled by the engine are ASCII, where the two functions agree).
* `needle in haystack` is `containsStr haystack needle`, a substring test.
* Python `re.search` of the handful of fixed patterns appearing in the code is
  embedded pattern by pattern as a leftmost backtracking scan that mirrors the
  alternation order, greediness and optional groups of each concrete regex.
* Python floats are modelled by exact rationals `ℚ`; all the concrete scores
  the claims mention are exactly representable, and the comparisons performed
  by the code are unaffected.
* `list.sort(key=..., reverse=True)` is a stable descending sort; it is
  embedded as the stable insertion sort `sortByPctDesc`, which agrees with any
  stable sort on the same key.
-/

namespace MedMatch

/-! ### Character and string primitives -/

/-- Lowercase an ASCII letter, mirroring `str.lower()` on ASCII text. -/
def asciiLowerChar (c : Char) : Char :=
  if 'A' ≤ c ∧ c ≤ 'Z' then Char.ofNat (c.toNat + 32) else c

/-- Uppercase an ASCII letter, mirroring `str.upper()` on ASCII text. -/
def asciiUpperChar (c : Char) : Char :=
  if 'a' ≤ c ∧ c ≤ 'z' then Char.ofNat (c.toNat - 32) else c

def asciiLower (s : String) : String := ⟨s.data.map asciiLowerChar⟩

def asciiUpper (s : String) : String := ⟨s.data.map asciiUpperChar⟩

/-- Boolean list-level comparison backing the Python substring operator. -/
def isPrefixB : List Char → List Char → Bool
  | [], _ => true
  | _ :: _, [] => false
  | a :: as, b :: bs => a == b && isPrefixB as bs

/-- `isInfixB pat t` holds when `pat` occurs contiguously inside `t`
(the Python expression `pat in t`). -/
def isInfixB (pat : List Char) : List Char → Bool
  | [] => isPrefixB pat []
  | c :: rest => isPrefixB pat (c :: rest) || isInfixB pat rest

/-- Python `needle in haystack` on strings. -/
def containsStr (hay needle : String) : Bool := isInfixB needle.data hay.data

/-- Python regex word character `\w` (the engine only sees ASCII text). -/
def isWordChar (c : Char) : Bool := c.isAlphanum || c == '_'

/-- Python regex whitespace `\s` on ASCII text. -/
def isSpaceChar (c : Char) : Bool :=
  c == ' ' || c == '\t' || c == '\n' || c == '\r' ||
  c == Char.ofNat 11 || c == Char.ofNat 12

def dropSpaces (t : List Char) : List Char := t.dropWhile isSpaceChar

/-- Consume a literal, returning the remaining input on success. -/
def stripLit (lit : List Char) (t : List Char) : Option (List Char) :=
  if isPrefixB lit t then some (t.drop lit.length) else none

/-- `wordMatchAt w t`: `t` starts with `w` and the next character (if any) is
not a word character, i.e. the trailing `\b` of the pattern holds here. -/
def wordMatchAt (w : List Char) (t : List Char) : Bool :=
  isPrefixB w t &&
    (match t.drop w.length with
     | [] => true
     | c :: _ => !isWordChar c)

/-- Scan of `re.search(r\b<word>\b, t)` where `<word>` consists of word
characters (possibly with internal spaces, as in `performance status`);
`prevOk` records whether the position is preceded by a non-word character. -/
def wordSearchAux (w : List Char) (prevOk : Bool) : List Char → Bool
  | [] => prevOk && wordMatchAt w []
  | c :: rest =>
    (prevOk && wordMatchAt w (c :: rest)) || wordSearchAux w (!isWordChar c) rest

def wordSearch (w : String) (t : String) : Bool := wordSearchAux w.data true t.data

/-- Maximal runs of characters satisfying `p` (used for `\w{4,}` tokens and
`str.split()`). -/
def runsAux (p : Char → Bool) (cur : List Char) : List Char → List (List Char)
  | [] => if cur.isEmpty then [] else [cur.reverse]
  | c :: rest =>
    if p c then runsAux p (c :: cur) rest
    else (if cur.isEmpty then [] else [cur.reverse]) ++ runsAux p [] rest

/-- Python `str.split()` with no argument: split on whitespace runs. -/
def splitWs (s : String) : List String :=
  (runsAux (fun c => !isSpaceChar c) [] s.data).map String.mk

/-- `re.findall(r\b\w{4,}\b, s)`: the maximal word-character runs of length
at least 4. -/
def keyTerms (s : String) : List String :=
  ((runsAux isWordChar [] s.data).filter (fun r => 4 ≤ r.length)).map String.mk

/-- Digit-string to number, mirroring Python `int` on a `\d+` group. -/
def digitsToNat (ds : List Char) : Nat :=
  ds.foldl (fun acc c => 10 * acc + (c.toNat - 48)) 0

/-! ### Embeddings of the fixed regular expressions

Each `re.search` call of the Python evaluators is embedded as a leftmost scan
(`searchA`) of a position-wise attempt that tries the alternatives of the
pattern in source order, with greedy `\s*` runs (every alternative that can
follow such a run starts with a non-space character, so full greed is exact).
-/

/-- Leftmost search: try `attempt` at every suffix, leftmost first. -/
def searchA {α : Type} (attempt : List Char → Option α) : List Char → Option α
  | [] => attempt []
  | c :: rest =>
    match attempt (c :: rest) with
    | some r => some r
    | none => searchA attempt rest

/-- After a subject, match `\s*(alt)\s*(\d+)` trying the comparator
alternatives in order; returns the digit group. -/
def tryAltsDigits (alts : List (List Char)) (t : List Char) : Option (List Char) :=
  match alts with
  | [] => none
  | a :: rest =>
    match stripLit a (dropSpaces t) with
    | some t1 =>
      let ds := (dropSpaces t1).takeWhile Char.isDigit
      if ds.isEmpty then tryAltsDigits rest t else some ds
    | none => tryAltsDigits rest t

/-- Attempt at one position: subject, then `\s*`, comparator, `\s*`, `(\d+)`.
The subjects `age` and `patient` start with different characters, so only the
`patients` / `patient` pair needs the backtracking of the optional `s?`. -/
def attemptAgePat (alts : List (List Char)) (t : List Char) : Option (List Char) :=
  match stripLit "age".data t with
  | some r => tryAltsDigits alts r
  | none =>
    match stripLit "patients".data t with
    | some r =>
      match tryAltsDigits alts r with
      | some g => some g
      | none =>
        match stripLit "patient".data t with
        | some r2 => tryAltsDigits alts r2
        | none => none
    | none =>
      match stripLit "patient".data t with
      | some r2 => tryAltsDigits alts r2
      | none => none

/-- Comparator alternatives of the minimum-age pattern
`(?:>=|≥|>=|greater than or equal to|at least|minimum|>|greater than)`. -/
def minAgeAlts : List (List Char) :=
  [">=".data, "≥".data, ">=".data, "greater than or equal to".data,
   "at least".data, "minimum".data, ">".data, "greater than".data]

/-- Comparator alternatives of the maximum-age pattern
`(?:<=|≤|<=|less than or equal to|maximum|<|less than)`. -/
def maxAgeAlts : List (List Char) :=
  ["<=".data, "≤".data, "<=".data, "less than or equal to".data,
   "maximum".data, "<".data, "less than".data]

/-- `re.search(r(?:age|patients?)\s*(?:>=|...)\s*(\d+), text)`: the matched
digit group, if any. -/
def minAgeGroup (t : List Char) : Option (List Char) :=
  searchA (attemptAgePat minAgeAlts) t

/-- `re.search(r(?:age|patients?)\s*(?:<=|...)\s*(\d+), text)`. -/
def maxAgeGroup (t : List Char) : Option (List Char) :=
  searchA (attemptAgePat maxAgeAlts) t

/-- After any comparator of `alts`, `\s*(\d)`: a single digit group. -/
def tryAltsDigit1 (alts : List (List Char)) (t : List Char) : Option Char :=
  match alts with
  | [] => none
  | a :: rest =>
    match stripLit a (dropSpaces t) with
    | some t1 =>
      match dropSpaces t1 with
      | c :: _ => if c.isDigit then some c else tryAltsDigit1 rest t
      | [] => tryAltsDigit1 rest t
    | none => tryAltsDigit1 rest t

/-- Attempt at one position of the `app/utils.py` ECOG pattern
`ecog\s*(?:performance status)?\s*(?:<=|≤|<=|less than or equal to|of)\s*(\d)`
(the optional group is greedy, then dropped on failure). -/
def attemptEcogUtils (t : List Char) : Option Char :=
  match stripLit "ecog".data t with
  | none => none
  | some t0 =>
    let t1 := dropSpaces t0
    let alts := ["<=".data, "≤".data, "<=".data, "less than or equal to".data, "of".data]
    match stripLit "performance status".data t1 with
    | some t2 =>
      match tryAltsDigit1 alts t2 with
      | some d => some d
      | none => tryAltsDigit1 alts t1
    | none => tryAltsDigit1 alts t1

/-- The digit group of the utils ECOG pattern, by leftmost search. -/
def ecogDigitUtils (t : List Char) : Option Char := searchA attemptEcogUtils t

def digitVal (c : Char) : Nat := c.toNat - 48

/-! ### Data model

`PatientFeatures` mirrors the dictionary produced by
`basic_feature_extraction` in `app/utils.py` (and the JSON shape requested
from the LLM): each scalar feature is a `value`/`source` pair with `value`
possibly `null`, the collections are lists of `value`/`source` records, and
`original_text` is appended last.  `Criterion` mirrors the criterion records
of the trial catalog (`text` and `type` fields). -/

structure ValueSource (α : Type) where
  value : Option α
  source : String
deriving DecidableEq, Repr

structure Entry where
  value : String
  source : String
deriving DecidableEq, Repr

structure PatientFeatures where
  age : ValueSource Nat
  gender : ValueSource String
  diagnosis : ValueSource String
  stage : ValueSource String
  ecog : ValueSource Nat
  mutations : List Entry
  metastases : List Entry
  previousTreatments : List Entry
  labValues : List (String × Entry)
  originalText : String
deriving DecidableEq, Repr

structure Criterion where
  text : String
  type : String
deriving DecidableEq, Repr

/-- The dictionary returned by both `check_criterion_match` functions:
the criterion itself, a `matches` flag and an `explanation`.  The Python key
`matches` is a Lean keyword, so the field is called `isMatch` here. -/
structure MatchResult where
  criterion : Criterion
  isMatch : Bool
  explanation : String
deriving DecidableEq, Repr

structure Trial where
  id : String
  title : String
  phase : String
  description : String
  inclusionCriteria : List Criterion
  exclusionCriteria : List Criterion
deriving DecidableEq, Repr

/-! ### `json.dumps` of the patient features

The generic branch of the utils evaluator serializes the whole feature
dictionary with `json.dumps` (default separators `", "` / `": "`, insertion
order, `ensure_ascii=True`) and lowercases the result. -/

def hexDigitChar (n : Nat) : Char :=
  if n < 10 then Char.ofNat (48 + n) else Char.ofNat (87 + n)

def hex4 (n : Nat) : String :=
  String.mk [hexDigitChar (n / 4096 % 16), hexDigitChar (n / 256 % 16),
             hexDigitChar (n / 16 % 16), hexDigitChar (n % 16)]

/-- One character of a JSON string literal, as emitted by `json.dumps` with
`ensure_ascii=True`. -/
def jsonEscChar (c : Char) : String :=
  if c == '"' then String.mk ['\\', '"']
  else if c == '\\' then String.mk ['\\', '\\']
  else if c == '\n' then String.mk ['\\', 'n']
  else if c == '\r' then String.mk ['\\', 'r']
  else if c == '\t' then String.mk ['\\', 't']
  else if c == Char.ofNat 8 then String.mk ['\\', 'b']
  else if c == Char.ofNat 12 then String.mk ['\\', 'f']
  else if c.toNat < 32 || 126 < c.toNat then "\\u" ++ hex4 c.toNat
  else String.singleton c

def jsonStr (s : String) : String :=
  "\"" ++ String.join (s.data.map jsonEscChar) ++ "\""

def jsonOptNat : Option Nat → String
  | none => "null"
  | some n => toString n

def jsonOptStr : Option String → String
  | none => "null"
  | some s => jsonStr s

def jsonVSNat (v : ValueSource Nat) : String :=
  "\x7b\"value\": " ++ jsonOptNat v.value ++ ", \"source\": " ++ jsonStr v.source ++ "\x7d"

def jsonVSStr (v : ValueSource String) : String :=
  "\x7b\"value\": " ++ jsonOptStr v.value ++ ", \"source\": " ++ jsonStr v.source ++ "\x7d"

def jsonEntry (e : Entry) : String :=
  "\x7b\"value\": " ++ jsonStr e.value ++ ", \"source\": " ++ jsonStr e.source ++ "\x7d"

def jsonEntryList (l : List Entry) : String :=
  "[" ++ String.intercalate ", " (l.map jsonEntry) ++ "]"

def jsonLabValues (l : List (String × Entry)) : String :=
  "\x7b" ++ String.intercalate ", " (l.map (fun p => jsonStr p.1 ++ ": " ++ jsonEntry p.2)) ++ "\x7d"

/-- `json.dumps(patient_features)` for the canonical feature dictionary. -/
def jsonDump (p : PatientFeatures) : String :=
  "\x7b\"age\": " ++ jsonVSNat p.age ++
  ", \"gender\": " ++ jsonVSStr p.gender ++
  ", \"diagnosis\": " ++ jsonVSStr p.diagnosis ++
  ", \"stage\": " ++ jsonVSStr p.stage ++
  ", \"ecog\": " ++ jsonVSNat p.ecog ++
  ", \"mutations\": " ++ jsonEntryList p.mutations ++
  ", \"metastases\": " ++ jsonEntryList p.metastases ++
  ", \"previous_treatments\": " ++ jsonEntryList p.previousTreatments ++
  ", \"lab_values\": " ++ jsonLabValues p.labValues ++
  ", \"original_text\": " ++ jsonStr p.originalText ++ "\x7d"

/-- `json.dumps(patient_features).lower()` as used by the generic branch. -/
def patientText (p : PatientFeatures) : String := asciiLower (jsonDump p)

/-! ### The evaluator of `app/utils.py` (`check_criterion_match`)

Criterion text and type are lowercased once on entry; the branch is picked by
the first matching detector in source order, and each branch produces the
`MatchResult` of the corresponding Python block. -/

/-- Branch condition `age in criterion_type or re.search(r\bage\b, text)`.
Note that the type test is a plain substring test, so e.g. the type string
`stage` also satisfies it. -/
def ageDet (ct tl : String) : Bool := containsStr tl "age" || wordSearch "age" ct

/-- `gender in criterion_type or re.search(r\b(?:male|female|gender|sex)\b, text)`. -/
def genderDet (ct tl : String) : Bool :=
  containsStr tl "gender" ||
    (wordSearch "male" ct || wordSearch "female" ct ||
     wordSearch "gender" ct || wordSearch "sex" ct)

/-- `diagnosis in criterion_type or any(x in text for x in [...])`. -/
def diagnosisDet (ct tl : String) : Bool :=
  containsStr tl "diagnosis" ||
    ["cancer", "tumor", "carcinoma", "sarcoma", "leukemia", "lymphoma"].any
      (fun x => containsStr ct x)

/-- `stage in criterion_type or re.search(r\bstage\b, text)`. -/
def stageDet (ct tl : String) : Bool := containsStr tl "stage" || wordSearch "stage" ct

/-- `ecog in criterion_type or performance status in text or re.search(r\becog\b, text)`. -/
def ecogDet (ct tl : String) : Bool :=
  containsStr tl "ecog" || containsStr ct "performance status" || wordSearch "ecog" ct

/-- `mutation in criterion_type or any(x in text for x in [...])`. -/
def mutationDet (ct tl : String) : Bool :=
  containsStr tl "mutation" ||
    ["mutation", "genetic", "biomarker", "expression"].any (fun x => containsStr ct x)

/-- `metastasis in criterion_type or any(x in text for x in [...])`. -/
def metastasisDet (ct tl : String) : Bool :=
  containsStr tl "metastasis" ||
    ["metastasis", "metastases", "metastatic"].any (fun x => containsStr ct x)

/-- `treatment in criterion_type or any(x in text for x in [...])`. -/
def treatmentDet (ct tl : String) : Bool :=
  containsStr tl "treatment" ||
    ["prior therapy", "previous treatment", "received", "undergone"].any
      (fun x => containsStr ct x)

/-- The closed criterion taxonomy of the specification. -/
inductive CriterionType where
  | age | gender | diagnosis | stage | performance
  | mutation | metastasis | treatment | labValue | generic
deriving DecidableEq, Repr

/-- The branch selected by the utils evaluator for a given criterion text and
type: the first matching detector, in the source order of the
`if`/`elif` chain, with `generic` as the final fallback. -/
def classify (text type : String) : CriterionType :=
  let ct := asciiLower text
  let tl := asciiLower type
  if ageDet ct tl then .age
  else if genderDet ct tl then .gender
  else if diagnosisDet ct tl then .diagnosis
  else if stageDet ct tl then .stage
  else if ecogDet ct tl then .performance
  else if mutationDet ct tl then .mutation
  else if metastasisDet ct tl then .metastasis
  else if treatmentDet ct tl then .treatment
  else .generic

/-- ASCII single quote, used inside some explanation strings. -/
def sq : String := String.singleton (Char.ofNat 39)

/-- Age branch of the utils evaluator. -/
def ageEvalUtils (c : Criterion) (ct : String) (p : PatientFeatures) : MatchResult :=
  match p.age.value with
  | none => ⟨c, false, "Patient age unknown"⟩
  | some age =>
    let afterMin : MatchResult :=
      match maxAgeGroup ct.data with
      | some g =>
        if digitsToNat g < age then
          ⟨c, false, "Patient age " ++ toString age ++ " is above maximum allowed age " ++ String.mk g⟩
        else ⟨c, true, "Patient age " ++ toString age ++ " meets criterion"⟩
      | none => ⟨c, true, "Patient age " ++ toString age ++ " meets criterion"⟩
    match minAgeGroup ct.data with
    | some g =>
      if age < digitsToNat g then
        ⟨c, false, "Patient age " ++ toString age ++ " is below minimum required age " ++ String.mk g⟩
      else afterMin
    | none => afterMin

/-- Gender branch of the utils evaluator. -/
def genderEvalUtils (c : Criterion) (ct : String) (p : PatientFeatures) : MatchResult :=
  match p.gender.value with
  | none => ⟨c, false, "Patient gender unknown"⟩
  | some gv =>
    let g := asciiLower gv
    if containsStr ct "male" && g == "male" then
      ⟨c, true, "Patient is male as required"⟩
    else if containsStr ct "female" && g == "female" then
      ⟨c, true, "Patient is female as required"⟩
    else if containsStr ct "male" && containsStr ct "female" then
      ⟨c, true, "Both genders are allowed"⟩
    else ⟨c, false, "Patient gender " ++ g ++ " does not match required gender"⟩

/-- Diagnosis branch of the utils evaluator. -/
def diagnosisEvalUtils (c : Criterion) (ct : String) (p : PatientFeatures) : MatchResult :=
  match p.diagnosis.value with
  | none => ⟨c, false, "Patient diagnosis unknown"⟩
  | some dv =>
    let d := asciiLower dv
    if containsStr ct d || (splitWs d).any (fun term => containsStr ct term) then
      ⟨c, true, "Patient diagnosis " ++ sq ++ d ++ sq ++ " matches criterion"⟩
    else ⟨c, false, "Patient diagnosis " ++ sq ++ d ++ sq ++ " not mentioned in criterion"⟩

/-- Stage branch of the utils evaluator: a plain substring test of the
lowercased patient stage against the criterion text. -/
def stageEvalUtils (c : Criterion) (ct : String) (p : PatientFeatures) : MatchResult :=
  match p.stage.value with
  | none => ⟨c, false, "Patient stage unknown"⟩
  | some s =>
    if containsStr ct (asciiLower s) then
      ⟨c, true, "Patient stage " ++ s ++ " matches criterion"⟩
    else ⟨c, false, "Patient stage " ++ s ++ " not mentioned in criterion"⟩

/-- ECOG branch of the utils evaluator. -/
def ecogEvalUtils (c : Criterion) (ct : String) (p : PatientFeatures) : MatchResult :=
  match p.ecog.value with
  | none => ⟨c, false, "Patient ECOG status unknown"⟩
  | some e =>
    match ecogDigitUtils ct.data with
    | some d =>
      if e ≤ digitVal d then
        ⟨c, true, "Patient ECOG " ++ toString e ++ " is within allowed range (≤" ++ String.singleton d ++ ")"⟩
      else ⟨c, false, "Patient ECOG " ++ toString e ++ " exceeds maximum allowed " ++ String.singleton d⟩
    | none =>
      if containsStr ct (toString e) then
        ⟨c, true, "Patient ECOG " ++ toString e ++ " mentioned in criterion"⟩
      else ⟨c, false, "Patient ECOG " ++ toString e ++ " not specifically mentioned"⟩

/-- Mutation branch of the utils evaluator. -/
def mutationEvalUtils (c : Criterion) (ct : String) (p : PatientFeatures) : MatchResult :=
  if !p.mutations.isEmpty then
    let matching := (p.mutations.filter (fun m => containsStr ct (asciiLower m.value))).map Entry.value
    if !matching.isEmpty then
      ⟨c, true, "Patient has required mutation(s): " ++ String.intercalate ", " matching⟩
    else ⟨c, false, "Patient mutations do not match required mutations"⟩
  else if containsStr ct "negative" || containsStr ct "without" then
    ⟨c, true, "No mutations detected, which matches negative mutation criterion"⟩
  else ⟨c, false, "No patient mutations detected"⟩

/-- Metastasis branch of the utils evaluator. -/
def metastasisEvalUtils (c : Criterion) (ct : String) (p : PatientFeatures) : MatchResult :=
  if !p.metastases.isEmpty then
    let matching := (p.metastases.filter (fun m => containsStr ct (asciiLower m.value))).map Entry.value
    if !matching.isEmpty then
      ⟨c, true, "Patient has metastases in mentioned sites: " ++ String.intercalate ", " matching⟩
    else ⟨c, false, "Patient metastasis sites do not match mentioned sites"⟩
  else if containsStr ct "without" || containsStr ct "no " then
    ⟨c, true, "No metastases detected, which matches criterion"⟩
  else ⟨c, false, "No patient metastases detected"⟩

/-- Prior-treatment branch of the utils evaluator. -/
def treatmentEvalUtils (c : Criterion) (ct : String) (p : PatientFeatures) : MatchResult :=
  if !p.previousTreatments.isEmpty then
    let matching := (p.previousTreatments.filter (fun m => containsStr ct (asciiLower m.value))).map Entry.value
    if !matching.isEmpty then
      if containsStr ct "without" || containsStr ct "no prior" then
        ⟨c, false, "Patient has received treatments mentioned as exclusions: " ++ String.intercalate ", " matching⟩
      else ⟨c, true, "Patient has received required treatments: " ++ String.intercalate ", " matching⟩
    else if containsStr ct "without" || containsStr ct "no prior" then
      ⟨c, true, "Patient has not received excluded treatments"⟩
    else ⟨c, false, "Patient has not received the required treatments"⟩
  else if containsStr ct "without" || containsStr ct "no prior" then
    ⟨c, true, "No prior treatments detected, which matches criterion"⟩
  else ⟨c, false, "No patient treatment history detected"⟩

/-- Generic branch of the utils evaluator: keyword overlap between the
criterion words of length at least 4 and the lowercased JSON dump of the
whole feature dictionary. -/
def genericEvalUtils (c : Criterion) (ct : String) (p : PatientFeatures) : MatchResult :=
  let ptext := patientText p
  let matching := (keyTerms ct).filter (fun term => containsStr ptext term)
  if !matching.isEmpty then
    ⟨c, true, "Patient data contains key terms: " ++ String.intercalate ", " matching⟩
  else ⟨c, false, "No matching terms found in patient data"⟩

/-- `check_criterion_match` from `app/utils.py` (lines 665-860), called by
`match_trials` in the same module. -/
def check_criterion_match (c : Criterion) (p : PatientFeatures) : MatchResult :=
  let ct := asciiLower c.text
  let tl := asciiLower c.type
  if ageDet ct tl then ageEvalUtils c ct p
  else if genderDet ct tl then genderEvalUtils c ct p
  else if diagnosisDet ct tl then diagnosisEvalUtils c ct p
  else if stageDet ct tl then stageEvalUtils c ct p
  else if ecogDet ct tl then ecogEvalUtils c ct p
  else if mutationDet ct tl then mutationEvalUtils c ct p
  else if metastasisDet ct tl then metastasisEvalUtils c ct p
  else if treatmentDet ct tl then treatmentEvalUtils c ct p
  else genericEvalUtils c ct p

/-! ### Aggregation and ranking (`match_trials` in `app/utils.py`,
`match_trials_db` fallback loop in `app/routes.py` — the two loops are
identical).  The per-trial loop accumulates a score, a criteria count and the
`matches` / `non_matches` lists; inclusion criteria count when the raw
evaluation matches, exclusion criteria when it does not. -/

structure AggState where
  score : Nat
  total : Nat
  matchList : List MatchResult
  nonMatchList : List MatchResult
deriving DecidableEq, Repr

/-- One iteration of the inclusion-criteria loop. -/
def incStep (p : PatientFeatures) (st : AggState) (c : Criterion) : AggState :=
  let r := check_criterion_match c p
  if r.isMatch then ⟨st.score + 1, st.total + 1, st.matchList ++ [r], st.nonMatchList⟩
  else ⟨st.score, st.total + 1, st.matchList, st.nonMatchList ++ [r]⟩

/-- One iteration of the exclusion-criteria loop: the raw evaluation is
inverted, and fresh records with fixed explanations are appended. -/
def excStep (p : PatientFeatures) (st : AggState) (c : Criterion) : AggState :=
  let r := check_criterion_match c p
  if r.isMatch then
    ⟨st.score, st.total + 1, st.matchList,
     st.nonMatchList ++ [⟨c, false, "Patient meets exclusion criterion: " ++ r.explanation⟩]⟩
  else
    ⟨st.score + 1, st.total + 1,
     st.matchList ++ [⟨c, true, "Patient does not meet exclusion criterion"⟩],
     st.nonMatchList⟩

/-- The per-trial criteria loops of `match_trials`. -/
def aggregateTrial (p : PatientFeatures) (t : Trial) : AggState :=
  t.exclusionCriteria.foldl (excStep p)
    (t.inclusionCriteria.foldl (incStep p) ⟨0, 0, [], []⟩)

/-- `match_percentage = (match_score / total_criteria * 100) if total_criteria > 0 else 0`
(Python float division, modelled exactly over `ℚ`). -/
def matchPercentage (p : PatientFeatures) (t : Trial) : ℚ :=
  let st := aggregateTrial p t
  if 0 < st.total then (st.score : ℚ) / (st.total : ℚ) * 100 else 0

/-- Python `round` to the nearest integer with ties to even. -/
def pyRound0 (q : ℚ) : ℤ :=
  let f := ⌊q⌋
  let r := q - (f : ℚ)
  if r < 1/2 then f
  else if 1/2 < r then f + 1
  else if f % 2 = 0 then f else f + 1

/-- Python `round(x, 1)`. -/
def pyRound1 (q : ℚ) : ℚ := (pyRound0 (q * 10) : ℚ) / 10

/-- The record appended to `matched_trials` for a trial above threshold. -/
structure TrialMatch where
  trialId : String
  title : String
  phase : String
  matchPercentage : ℚ
  matchList : List MatchResult
  nonMatchList : List MatchResult
  description : String
deriving DecidableEq, Repr

/-- Stable insertion producing the same result as the Python stable
`list.sort(key=lambda x: x[match_percentage], reverse=True)`: an element
moves past exactly the elements with a strictly larger key, so equal keys
keep their original relative order. -/
def insertByPct (x : TrialMatch) : List TrialMatch → List TrialMatch
  | [] => [x]
  | y :: l =>
    if x.matchPercentage < y.matchPercentage then y :: insertByPct x l
    else x :: y :: l

/-- Stable descending sort by `match_percentage`. -/
def sortByPctDesc : List TrialMatch → List TrialMatch
  | [] => []
  | x :: l => insertByPct x (sortByPctDesc l)

/-- `match_trials` from `app/utils.py`: evaluate every trial, keep those with
`match_percentage >= 50`, sort by percentage descending. -/
def match_trials (p : PatientFeatures) (trials : List Trial) : List TrialMatch :=
  sortByPctDesc
    (trials.filterMap (fun t =>
      let pct := matchPercentage p t
      if 50 ≤ pct then
        some ⟨t.id, t.title, t.phase, pyRound1 pct,
              (aggregateTrial p t).matchList, (aggregateTrial p t).nonMatchList,
              t.description⟩
      else none))

/-- The score computation of the hybrid branch of `match_trials_db`
(`app/routes.py` lines 554-561): the deterministic percentage over the
semantic criteria lists, overridden by the semantic score when no criteria
were evaluated and a semantic score is present. -/
def hybridMatchPercentage (matchingCriteria conflictingCriteria : List Criterion)
    (semanticScore : Option ℚ) : ℚ :=
  let ms : Nat := matchingCriteria.length
  let tc : Nat := ms + conflictingCriteria.length
  let mp : ℚ := if 0 < tc then (ms : ℚ) / (tc : ℚ) * 100 else 0
  match semanticScore with
  | some s => if tc = 0 then s else mp
  | none => mp

/-! ### The evaluator of `app/routes.py` (`check_criterion_match`,
lines 668-990)

`app/routes.py` defines its own `check_criterion_match`, shadowing the utils
one inside that module; `match_trials_db` (the function behind the live
`/match` endpoint) calls this version.  Its age and gender detectors and its
age branch coincide with the utils ones; the remaining branches differ. -/

/-- Routes diagnosis detector:
`diagnosis in type or re.search(r\b(?:cancer|tumor|carcinoma|sarcoma|leukemia|lymphoma|melanoma|glioma|blastoma)\b, text)`. -/
def diagnosisDetR (ct tl : String) : Bool :=
  containsStr tl "diagnosis" ||
    ["cancer", "tumor", "carcinoma", "sarcoma", "leukemia", "lymphoma",
     "melanoma", "glioma", "blastoma"].any (fun x => wordSearch x ct)

/-- Routes performance detector: `performance in type or ecog in type or
re.search(r\b(?:ECOG|performance status|PS)\b, text)`.  The pattern is
compiled without `re.IGNORECASE` and the text is lowercased, so the
alternatives `ECOG` and `PS` can never fire; they are kept literally. -/
def perfDetR (ct tl : String) : Bool :=
  containsStr tl "performance" || containsStr tl "ecog" ||
    (wordSearch "ECOG" ct || wordSearch "performance status" ct || wordSearch "PS" ct)

/-- Routes mutation detector: `mutation in criterion_type` (type only). -/
def mutationDetR (ct tl : String) : Bool :=
  let _ := ct
  containsStr tl "mutation"

/-- Routes metastasis detector. -/
def metastasisDetR (ct tl : String) : Bool :=
  containsStr tl "metastasis" ||
    ["metastases", "metastasis", "metastatic"].any (fun x => wordSearch x ct)

/-- Routes treatment detector:
`treatment in type or re.search(r\b(?:prior|previous|therapy|treatment)\b, text)`. -/
def treatmentDetR (ct tl : String) : Bool :=
  containsStr tl "treatment" ||
    ["prior", "previous", "therapy", "treatment"].any (fun x => wordSearch x ct)

/-! Roman-numeral stage patterns of the routes stage branch.  The group
`(I{1,3}V?|IV|III|II|I)` is matched with `re.IGNORECASE` against lowercased
text, so effectively over the letters `i`/`v`; candidates are produced in the
backtracking order of the regex (greedy run of up to three `i`, optional `v`
preferred). -/

/-- Candidates `(matched, rest)` of `I{1,3}V?` in backtracking order. -/
def romanA1 (t : List Char) : List (List Char × List Char) :=
  let k := min 3 (t.takeWhile (fun c => c == 'i')).length
  ((List.range k).map (fun idx => k - idx)).flatMap (fun j =>
    let rest := t.drop j
    let base := (t.take j, rest)
    match rest with
    | 'v' :: rest2 => [(t.take j ++ ['v'], rest2), base]
    | _ => [base])

/-- All candidates of `(I{1,3}V?|IV|III|II|I)` in alternation order. -/
def romanCands (t : List Char) : List (List Char × List Char) :=
  romanA1 t ++
    (["iv", "iii", "ii", "i"].filterMap (fun lit =>
      (stripLit lit.data t).map (fun r => (lit.data, r))))

/-- Attempt of `re.search(rstage\s+(I{1,3}V?|IV|III|II|I)([A-C])?, ..., I)`
at one position; returns the two groups. -/
def attemptStageExact (t : List Char) : Option (List Char × Option Char) :=
  (stripLit "stage".data t).bind (fun t1 =>
    let sp := t1.takeWhile isSpaceChar
    if sp.isEmpty then none
    else
      match romanCands (t1.drop sp.length) with
      | [] => none
      | (g, rest) :: _ =>
        match rest with
        | c :: _ => if c == 'a' || c == 'b' || c == 'c' then some (g, some c) else some (g, none)
        | [] => some (g, none))

def stageExactSearch (ct : String) : Option (List Char × Option Char) :=
  searchA attemptStageExact ct.data

/-- Try the group-1 candidates of the stage range pattern, each followed by
`\s*[-–—]\s*` and a second Roman group. -/
def stageRangeTail : List (List Char × List Char) → Option (List Char × List Char)
  | [] => none
  | (g1, rest) :: more =>
    match dropSpaces rest with
    | d :: rest2 =>
      if d == '-' || d == '–' || d == '—' then
        match romanCands (dropSpaces rest2) with
        | (g2, _) :: _ => some (g1, g2)
        | [] => stageRangeTail more
      else stageRangeTail more
    | [] => stageRangeTail more

/-- Attempt of
`re.search(rstage\s+([I]{1,3}V?|IV|III|II|I)\s*[-–—]\s*([I]{1,3}V?|IV|III|II|I), ..., I)`. -/
def attemptStageRange (t : List Char) : Option (List Char × List Char) :=
  (stripLit "stage".data t).bind (fun t1 =>
    let sp := t1.takeWhile isSpaceChar
    if sp.isEmpty then none
    else stageRangeTail (romanCands (t1.drop sp.length)))

def stageRangeSearch (ct : String) : Option (List Char × List Char) :=
  searchA attemptStageRange ct.data

/-- `roman_to_int.get(s, 0)` with the dictionary `I:1, II:2, III:3, IV:4`. -/
def romanToInt (s : String) : Nat :=
  if s == "I" then 1 else if s == "II" then 2
  else if s == "III" then 3 else if s == "IV" then 4 else 0

/-! ECOG patterns of the routes performance branch.  All three start with the same
leading pattern `ECOG\s*(?:PS|performance status)?\s*` (with `re.IGNORECASE`); the
alternatives reachable after it start with pairwise distinct characters, so
chaining them with `<|>` realizes the backtracking order of the regex. -/

/-- Shared scaffold: `ecog`, `\s*`, optional `(?:ps|performance status)`,
then `fin` applied after the following `\s*` is handled by `fin` itself. -/
def ecogScaffold {α : Type} (fin : List Char → Option α) (t : List Char) : Option α :=
  (stripLit "ecog".data t).bind (fun t0 =>
    let t1 := dropSpaces t0
    let after1 : List Char → Option α := fun u => fin (dropSpaces u)
    ((stripLit "ps".data t1).bind after1) <|>
    ((stripLit "performance status".data t1).bind after1) <|>
    after1 t1)

/-- `(?:of|:|=)?\s*(\d)` — the tail of the exact-value ECOG pattern. -/
def ecogExactTail (t : List Char) : Option Char :=
  let fin : List Char → Option Char := fun r =>
    match dropSpaces r with
    | c :: _ => if c.isDigit then some c else none
    | [] => none
  ((stripLit "of".data t).bind fin) <|>
  ((stripLit ":".data t).bind fin) <|>
  ((stripLit "=".data t).bind fin) <|>
  fin t

/-- `re.search(rECOG\s*(?:PS|performance status)?\s*(?:of|:|=)?\s*(\d), ..., I)`. -/
def ecogExactSearch (ct : String) : Option Char :=
  searchA (ecogScaffold ecogExactTail) ct.data

/-- `(?:of|:|=)?\s*(\d)\s*[-–—]\s*(\d)` — the tail of the range ECOG pattern. -/
def ecogRangeTail (t : List Char) : Option (Char × Char) :=
  let fin : List Char → Option (Char × Char) := fun r =>
    match dropSpaces r with
    | c :: rest =>
      if c.isDigit then
        match dropSpaces rest with
        | d :: rest2 =>
          if d == '-' || d == '–' || d == '—' then
            match dropSpaces rest2 with
            | e :: _ => if e.isDigit then some (c, e) else none
            | [] => none
          else none
        | [] => none
      else none
    | [] => none
  ((stripLit "of".data t).bind fin) <|>
  ((stripLit ":".data t).bind fin) <|>
  ((stripLit "=".data t).bind fin) <|>
  fin t

def ecogRangeSearch (ct : String) : Option (Char × Char) :=
  searchA (ecogScaffold ecogRangeTail) ct.data

/-- `(?:<=|≤|less than or equal to)\s*(\d)` — mandatory comparator tail of the
third ECOG pattern. -/
def ecogLeTail (t : List Char) : Option Char :=
  let fin : List Char → Option Char := fun r =>
    match dropSpaces r with
    | c :: _ => if c.isDigit then some c else none
    | [] => none
  ((stripLit "<=".data t).bind fin) <|>
  ((stripLit "≤".data t).bind fin) <|>
  ((stripLit "less than or equal to".data t).bind fin)

def ecogLeSearch (ct : String) : Option Char :=
  searchA (ecogScaffold ecogLeTail) ct.data

/-- Gender branch of the routes evaluator (no `Both genders` case, different
mismatch wording). -/
def genderEvalR (c : Criterion) (ct : String) (p : PatientFeatures) : MatchResult :=
  match p.gender.value with
  | none => ⟨c, false, "Patient gender unknown"⟩
  | some gv =>
    let g := asciiLower gv
    if containsStr ct "male" && g == "male" then
      ⟨c, true, "Patient is male as required"⟩
    else if containsStr ct "female" && g == "female" then
      ⟨c, true, "Patient is female as required"⟩
    else ⟨c, false, "Patient gender " ++ g ++ " does not match criterion"⟩

/-- Diagnosis branch of the routes evaluator: fixed cancer-type vocabulary,
then generic-term overlap. -/
def diagnosisEvalR (c : Criterion) (ct : String) (p : PatientFeatures) : MatchResult :=
  match p.diagnosis.value with
  | none => ⟨c, false, "Patient diagnosis unknown"⟩
  | some dv =>
    let d := asciiLower dv
    let cancerTypes := ["lung", "breast", "colorectal", "ovarian", "prostate", "pancreatic"]
    let patientCancerTypes := cancerTypes.filter (fun x => containsStr d x)
    if !patientCancerTypes.isEmpty then
      if patientCancerTypes.any (fun x => containsStr ct x) then
        ⟨c, true, "Patient has " ++ d ++ " which matches criterion"⟩
      else ⟨c, false, "Patient has " ++ d ++ " which does not match required cancer type"⟩
    else
      let commonTerms := ["non-small cell", "small cell", "metastatic", "advanced", "recurrent", "invasive"]
      if commonTerms.any (fun term => containsStr d term && containsStr ct term) then
        ⟨c, true, "Patient" ++ sq ++ "s diagnosis " ++ d ++ " generally matches criterion"⟩
      else ⟨c, false, "Patient" ++ sq ++ "s diagnosis " ++ d ++ " does not match criterion"⟩

/-- Stage branch of the routes evaluator: exact Roman-numeral match, then
range with Roman-to-integer comparison, then early/advanced buckets. -/
def stageEvalR (c : Criterion) (ct : String) (p : PatientFeatures) : MatchResult :=
  match p.stage.value with
  | none => ⟨c, false, "Patient disease stage unknown"⟩
  | some sv =>
    let s := asciiUpper sv
    match stageExactSearch ct with
    | some (g1, g2) =>
      let cstage := asciiUpper (String.mk g1) ++
        (match g2 with
         | some ch => asciiUpper (String.singleton ch)
         | none => "")
      if s == cstage then ⟨c, true, "Patient stage " ++ s ++ " matches criterion exactly"⟩
      else
        match stageRangeSearch ct with
        | some (r1, r2) =>
          let start := asciiUpper (String.mk r1)
          let stop := asciiUpper (String.mk r2)
          let pnum := romanToInt ⟨s.data.filter (fun ch => !(ch == 'A' || ch == 'B' || ch == 'C'))⟩
          let snum := romanToInt start
          let enum := romanToInt stop
          if snum ≤ pnum && pnum ≤ enum then
            ⟨c, true, "Patient stage " ++ s ++ " is within the range " ++ start ++ "-" ++ stop⟩
          else ⟨c, false, "Patient stage " ++ s ++ " is outside the range " ++ start ++ "-" ++ stop⟩
        | none => ⟨c, false, "Patient stage " ++ s ++ " does not match criterion stage " ++ cstage⟩
    | none =>
      if containsStr ct "early stage" && ["I", "II", "IA", "IB", "IIA", "IIB"].contains s then
        ⟨c, true, "Patient has early stage disease (" ++ s ++ ")"⟩
      else if containsStr ct "advanced stage" && ["III", "IV", "IIIA", "IIIB", "IIIC", "IV"].contains s then
        ⟨c, true, "Patient has advanced stage disease (" ++ s ++ ")"⟩
      else ⟨c, false, "Cannot determine if patient stage " ++ s ++ " matches criterion"⟩

/-- Performance branch of the routes evaluator: exact value, then range, then
inequality, then undetermined. -/
def ecogEvalR (c : Criterion) (ct : String) (p : PatientFeatures) : MatchResult :=
  match p.ecog.value with
  | none => ⟨c, false, "Patient ECOG status unknown"⟩
  | some e =>
    match ecogExactSearch ct with
    | some dc =>
      let ce := digitVal dc
      if e == ce then ⟨c, true, "Patient ECOG " ++ toString e ++ " matches criterion exactly"⟩
      else ⟨c, false, "Patient ECOG " ++ toString e ++ " does not match criterion ECOG " ++ toString ce⟩
    | none =>
      match ecogRangeSearch ct with
      | some (d1, d2) =>
        let lo := digitVal d1
        let hi := digitVal d2
        if lo ≤ e && e ≤ hi then
          ⟨c, true, "Patient ECOG " ++ toString e ++ " is within the range " ++ toString lo ++ "-" ++ toString hi⟩
        else ⟨c, false, "Patient ECOG " ++ toString e ++ " is outside the range " ++ toString lo ++ "-" ++ toString hi⟩
      | none =>
        match ecogLeSearch ct with
        | some d =>
          let hi := digitVal d
          if e ≤ hi then
            ⟨c, true, "Patient ECOG " ++ toString e ++ " is less than or equal to " ++ toString hi⟩
          else ⟨c, false, "Patient ECOG " ++ toString e ++ " is greater than " ++ toString hi⟩
        | none => ⟨c, false, "Cannot determine if patient ECOG " ++ toString e ++ " matches criterion"⟩

/-- The ordered biomarker alias table of the routes mutation branch. -/
def commonMutations : List (String × List String) :=
  [("egfr", ["egfr", "epidermal growth factor receptor"]),
   ("alk", ["alk", "anaplastic lymphoma kinase"]),
   ("ros1", ["ros1"]),
   ("braf", ["braf", "braf v600e", "braf v600"]),
   ("kras", ["kras", "kras g12c"]),
   ("her2", ["her2", "erbb2"]),
   ("brca", ["brca1", "brca2"]),
   ("pd-l1", ["pd-l1", "pdl1"]),
   ("msi", ["msi-h", "microsatellite instability-high"]),
   ("tmb", ["tmb-high", "tumor mutational burden-high"])]

/-- The `for mutation_type, aliases in common_mutations.items()` loop with its
early returns; `none` when the loop falls through. -/
def mutationLoopR (c : Criterion) (ct : String) (pmuts : List String) :
    List (String × List String) → Option MatchResult
  | [] => none
  | (mt, aliases) :: rest =>
    if aliases.any (fun a => containsStr ct a) then
      let has := pmuts.any (fun pm => aliases.any (fun a => containsStr pm a))
      if containsStr ct "positive" || containsStr ct "with mutation" then
        some (if has then ⟨c, true, "Patient is positive for " ++ mt ++ " mutation"⟩
              else ⟨c, false, "Patient is not positive for " ++ mt ++ " mutation"⟩)
      else if containsStr ct "negative" || containsStr ct "without mutation" ||
              containsStr ct "wild-type" then
        some (if !has then ⟨c, true, "Patient is negative for " ++ mt ++ " mutation"⟩
              else ⟨c, false, "Patient is not negative for " ++ mt ++ " mutation"⟩)
      else mutationLoopR c ct pmuts rest
    else mutationLoopR c ct pmuts rest

/-- Mutation branch of the routes evaluator. -/
def mutationEvalR (c : Criterion) (ct : String) (p : PatientFeatures) : MatchResult :=
  let pmuts := p.mutations.map (fun m => asciiLower m.value)
  match mutationLoopR c ct pmuts commonMutations with
  | some r => r
  | none =>
    let hasAny := !pmuts.isEmpty
    let requiresAny := containsStr ct "mutation" &&
      (containsStr ct "positive" || containsStr ct "with mutation")
    let requiresNo := containsStr ct "mutation" &&
      (containsStr ct "negative" || containsStr ct "without mutation")
    if requiresAny then
      if hasAny then ⟨c, true, "Patient has mutations as required"⟩
      else ⟨c, false, "Patient does not have any mutations"⟩
    else if requiresNo then
      if !hasAny then ⟨c, true, "Patient has no mutations as required"⟩
      else ⟨c, false, "Patient has mutations which are not allowed"⟩
    else ⟨c, false, "Cannot determine if patient" ++ sq ++ "s mutation status matches criterion"⟩

/-- Metastasis branch of the routes evaluator (brain metastases special-cased). -/
def metastasisEvalR (c : Criterion) (ct : String) (p : PatientFeatures) : MatchResult :=
  let pmets := p.metastases.map (fun m => asciiLower m.value)
  if containsStr ct "brain" && containsStr ct "metastases" then
    let hasBrain := pmets.any (fun m => containsStr m "brain")
    if containsStr ct "no " || containsStr ct "without " || containsStr ct "absence of " then
      if !hasBrain then ⟨c, true, "Patient does not have brain metastases as required"⟩
      else ⟨c, false, "Patient has brain metastases which are not allowed"⟩
    else
      if hasBrain then ⟨c, true, "Patient has brain metastases as required"⟩
      else ⟨c, false, "Patient does not have brain metastases"⟩
  else
    let hasAny := !pmets.isEmpty
    let requiresMet := containsStr ct "metastatic" &&
      !(containsStr ct "no " || containsStr ct "not ")
    let requiresNon := containsStr ct "non-metastatic" ||
      (containsStr ct "metastatic" && (containsStr ct "no " || containsStr ct "not "))
    if requiresMet then
      if hasAny then ⟨c, true, "Patient has metastatic disease as required"⟩
      else ⟨c, false, "Patient does not have metastatic disease"⟩
    else if requiresNon then
      if !hasAny then ⟨c, true, "Patient has non-metastatic disease as required"⟩
      else ⟨c, false, "Patient has metastatic disease which does not match criterion"⟩
    else ⟨c, false, "Cannot determine if patient" ++ sq ++ "s metastatic status matches criterion"⟩

/-- The ordered treatment alias table of the routes treatment branch. -/
def commonTreatments : List (String × List String) :=
  [("chemotherapy", ["chemotherapy", "cytotoxic"]),
   ("radiation", ["radiation", "radiotherapy"]),
   ("immunotherapy", ["immunotherapy", "checkpoint inhibitor", "anti-pd-1", "anti-pd-l1", "anti-ctla-4"]),
   ("targeted therapy", ["targeted therapy", "tyrosine kinase inhibitor", "tki", "egfr-tki"]),
   ("surgery", ["surgery", "resection", "surgical"])]

/-- The treatment-type loop of the routes treatment branch. -/
def treatmentLoopR (c : Criterion) (ct : String) (prior : List String) :
    List (String × List String) → Option MatchResult
  | [] => none
  | (tt, aliases) :: rest =>
    if aliases.any (fun a => containsStr ct a) then
      let has := prior.any (fun tr => aliases.any (fun a => containsStr tr a))
      if containsStr ct "no prior" || containsStr ct "without prior" then
        some (if !has then ⟨c, true, "Patient has not received prior " ++ tt ++ " as required"⟩
              else ⟨c, false, "Patient has received prior " ++ tt ++ " which is not allowed"⟩)
      else if containsStr ct "prior" || containsStr ct "previous" then
        some (if has then ⟨c, true, "Patient has received prior " ++ tt ++ " as required"⟩
              else ⟨c, false, "Patient has not received prior " ++ tt⟩)
      else treatmentLoopR c ct prior rest
    else treatmentLoopR c ct prior rest

/-- Treatment branch of the routes evaluator. -/
def treatmentEvalR (c : Criterion) (ct : String) (p : PatientFeatures) : MatchResult :=
  let prior := p.previousTreatments.map (fun m => asciiLower m.value)
  match treatmentLoopR c ct prior commonTreatments with
  | some r => r
  | none =>
    if containsStr ct "treatment-naive" || containsStr ct "treatment naive" then
      if prior.length = 0 then ⟨c, true, "Patient is treatment-naive as required"⟩
      else ⟨c, false, "Patient has received prior treatment"⟩
    else
      let hasAny := !prior.isEmpty
      let requiresAny := containsStr ct "prior treatment" &&
        !(containsStr ct "no prior" || containsStr ct "without prior")
      let requiresNo := containsStr ct "no prior treatment" ||
        containsStr ct "without prior treatment"
      if requiresAny then
        if hasAny then ⟨c, true, "Patient has received prior treatment as required"⟩
        else ⟨c, false, "Patient has not received prior treatment"⟩
      else if requiresNo then
        if !hasAny then ⟨c, true, "Patient has not received prior treatment as required"⟩
        else ⟨c, false, "Patient has received prior treatment which is not allowed"⟩
      else ⟨c, false, "Cannot determine if patient" ++ sq ++ "s treatment history matches criterion"⟩

/-- `check_criterion_match` from `app/routes.py` (lines 668-990), called by
the fallback loop of `match_trials_db` in the same module.  Its final branch
marks every otherwise-unclassified criterion as matching. -/
def routes_check_criterion_match (c : Criterion) (p : PatientFeatures) : MatchResult :=
  let ct := asciiLower c.text
  let tl := asciiLower c.type
  if ageDet ct tl then ageEvalUtils c ct p
  else if genderDet ct tl then genderEvalR c ct p
  else if diagnosisDetR ct tl then diagnosisEvalR c ct p
  else if stageDet ct tl then stageEvalR c ct p
  else if perfDetR ct tl then ecogEvalR c ct p
  else if mutationDetR ct tl then mutationEvalR c ct p
  else if metastasisDetR ct tl then metastasisEvalR c ct p
  else if treatmentDetR ct tl then treatmentEvalR c ct p
  else ⟨c, true, "Criterion assumed to match (general criterion)"⟩

/-! ### Helper lemmas about the string primitives -/

theorem isPrefixB_iff (w : List Char) : ∀ t : List Char,
    isPrefixB w t = true ↔ ∃ r, t = w ++ r := by
  induction w with
  | nil => intro t; simp [isPrefixB]
  | cons a as ih =>
    intro t
    cases t with
    | nil => simp [isPrefixB]
    | cons b bs =>
      simp only [isPrefixB, Bool.and_eq_true, beq_iff_eq, ih bs, List.cons_append,
        List.cons.injEq]
      constructor
      · rintro ⟨hab, r, hr⟩; exact ⟨r, hab.symm, hr⟩
      · rintro ⟨r, hab, hr⟩; exact ⟨hab.symm, r, hr⟩

theorem isInfixB_iff (w : List Char) : ∀ t : List Char,
    isInfixB w t = true ↔ ∃ a b, t = a ++ w ++ b := by
  intro t
  induction t with
  | nil =>
    simp only [isInfixB, isPrefixB_iff]
    constructor
    · rintro ⟨r, hr⟩; exact ⟨[], r, by simpa using hr⟩
    · rintro ⟨a, b, hab⟩
      rcases List.append_eq_nil.mp ((List.append_assoc a w b ▸ hab).symm) with ⟨ha, hwb⟩
      rcases List.append_eq_nil.mp hwb with ⟨hw, hb⟩
      exact ⟨[], by simp [hw]⟩
  | cons c rest ih =>
    simp only [isInfixB, Bool.or_eq_true, isPrefixB_iff, ih]
    constructor
    · rintro (⟨r, hr⟩ | ⟨a, b, hab⟩)
      · exact ⟨[], r, by simpa using hr⟩
      · exact ⟨c :: a, b, by simp [hab]⟩
    · rintro ⟨a, b, hab⟩
      cases a with
      | nil => exact Or.inl ⟨b, by simpa using hab⟩
      | cons c' a' =>
        simp only [List.cons_append, List.cons.injEq] at hab
        exact Or.inr ⟨a', b, hab.2⟩

/-- A string containing `female` contains `male` (the substring test the
gender branch performs is not word-bounded). -/
theorem contains_male_of_contains_female (s : String)
    (h : containsStr s "female" = true) : containsStr s "male" = true := by
  unfold containsStr at h ⊢
  rcases (isInfixB_iff _ _).mp h with ⟨a, b, hab⟩
  refine (isInfixB_iff _ _).mpr ⟨a ++ ['f', 'e'], b, ?_⟩
  simpa [List.append_assoc] using hab

/-! ### Helper lemmas about classification -/

theorem classify_eq_generic_iff (text ty : String) :
    classify text ty = CriterionType.generic ↔
      (ageDet (asciiLower text) (asciiLower ty) = false ∧
       genderDet (asciiLower text) (asciiLower ty) = false ∧
       diagnosisDet (asciiLower text) (asciiLower ty) = false ∧
       stageDet (asciiLower text) (asciiLower ty) = false ∧
       ecogDet (asciiLower text) (asciiLower ty) = false ∧
       mutationDet (asciiLower text) (asciiLower ty) = false ∧
       metastasisDet (asciiLower text) (asciiLower ty) = false ∧
       treatmentDet (asciiLower text) (asciiLower ty) = false) := by
  simp only [classify]
  split_ifs with h1 h2 h3 h4 h5 h6 h7 h8 <;> simp_all

/-- Unfolding of the utils evaluator in the generic branch. -/
theorem check_eq_genericEval (c : Criterion) (p : PatientFeatures)
    (h : classify c.text c.type = CriterionType.generic) :
    check_criterion_match c p = genericEvalUtils c (asciiLower c.text) p := by
  obtain ⟨h1, h2, h3, h4, h5, h6, h7, h8⟩ := (classify_eq_generic_iff _ _).mp h
  simp [check_criterion_match, h1, h2, h3, h4, h5, h6, h7, h8]

/-- The generic branch matches exactly when some criterion word of length at
least 4 occurs in the serialized patient features. -/
theorem genericEval_isMatch_iff (c : Criterion) (ct : String) (p : PatientFeatures) :
    (genericEvalUtils c ct p).isMatch = true ↔
      ∃ term ∈ keyTerms ct, containsStr (patientText p) term = true := by
  unfold genericEvalUtils
  by_cases h : (keyTerms ct).filter (fun term => containsStr (patientText p) term) = []
  · simp only [h, List.isEmpty_nil, Bool.not_true, if_false]
    simp only [List.filter_eq_nil_iff] at h
    simpa using h
  · have : ((keyTerms ct).filter (fun term => containsStr (patientText p) term)).isEmpty = false := by
      simpa [List.isEmpty_iff] using h
    simp only [this, Bool.not_false, if_true]
    simp only [List.filter_eq_nil_iff] at h
    push_neg at h
    simpa using h

/-! ### Characterization of the aggregation loops -/

/-- The inclusion loop adds one to the total per criterion, one to the score
per raw match, appends the matching results to `matches` and the others to
`non_matches`. -/
theorem foldl_incStep (p : PatientFeatures) :
    ∀ (cs : List Criterion) (st : AggState),
      cs.foldl (incStep p) st =
        ⟨st.score + cs.countP (fun c => (check_criterion_match c p).isMatch),
         st.total + cs.length,
         st.matchList ++ (cs.filter (fun c => (check_criterion_match c p).isMatch)).map
           (fun c => check_criterion_match c p),
         st.nonMatchList ++ (cs.filter (fun c => !(check_criterion_match c p).isMatch)).map
           (fun c => check_criterion_match c p)⟩ := by
  intro cs
  induction cs with
  | nil => intro st; simp
  | cons c cs ih =>
    intro st
    by_cases h : (check_criterion_match c p).isMatch = true
    · simp [List.foldl_cons, ih, incStep, h, List.countP_cons, List.filter_cons,
        List.append_assoc, AggState.mk.injEq]
      omega
    · have h' : (check_criterion_match c p).isMatch = false := by
        cases hx : (check_criterion_match c p).isMatch
        · rfl
        · exact absurd hx h
      simp [List.foldl_cons, ih, incStep, h', List.countP_cons, List.filter_cons,
        List.append_assoc, AggState.mk.injEq]
      omega

/-- The exclusion loop inverts the raw evaluation: criteria whose raw
evaluation does NOT match add one to the score and a fresh positive record to
`matches`; criteria whose raw evaluation matches only add a fresh violation
record to `non_matches`. -/
theorem foldl_excStep (p : PatientFeatures) :
    ∀ (cs : List Criterion) (st : AggState),
      cs.foldl (excStep p) st =
        ⟨st.score + cs.countP (fun c => !(check_criterion_match c p).isMatch),
         st.total + cs.length,
         st.matchList ++ (cs.filter (fun c => !(check_criterion_match c p).isMatch)).map
           (fun c => ⟨c, true, "Patient does not meet exclusion criterion"⟩),
         st.nonMatchList ++ (cs.filter (fun c => (check_criterion_match c p).isMatch)).map
           (fun c => ⟨c, false,
             "Patient meets exclusion criterion: " ++ (check_criterion_match c p).explanation⟩)⟩ := by
  intro cs
  induction cs with
  | nil => intro st; simp
  | cons c cs ih =>
    intro st
    by_cases h : (check_criterion_match c p).isMatch = true
    · simp [List.foldl_cons, ih, excStep, h, List.countP_cons, List.filter_cons,
        List.append_assoc, AggState.mk.injEq]
      omega
    · have h' : (check_criterion_match c p).isMatch = false := by
        cases hx : (check_criterion_match c p).isMatch
        · rfl
        · exact absurd hx h
      simp [List.foldl_cons, ih, excStep, h', List.countP_cons, List.filter_cons,
        List.append_assoc, AggState.mk.injEq]
      omega

/-- Closed form of the whole per-trial aggregation. -/
theorem aggregateTrial_eq (p : PatientFeatures) (t : Trial) :
    aggregateTrial p t =
      ⟨(t.inclusionCriteria.countP (fun c => (check_criterion_match c p).isMatch)) +
         (t.exclusionCriteria.countP (fun c => !(check_criterion_match c p).isMatch)),
       t.inclusionCriteria.length + t.exclusionCriteria.length,
       (t.inclusionCriteria.filter (fun c => (check_criterion_match c p).isMatch)).map
           (fun c => check_criterion_match c p) ++
         (t.exclusionCriteria.filter (fun c => !(check_criterion_match c p).isMatch)).map
           (fun c => ⟨c, true, "Patient does not meet exclusion criterion"⟩),
       (t.inclusionCriteria.filter (fun c => !(check_criterion_match c p).isMatch)).map
           (fun c => check_criterion_match c p) ++
         (t.exclusionCriteria.filter (fun c => (check_criterion_match c p).isMatch)).map
           (fun c => ⟨c, false,
             "Patient meets exclusion criterion: " ++ (check_criterion_match c p).explanation⟩)⟩ := by
  unfold aggregateTrial
  rw [foldl_incStep, foldl_excStep]
  simp [List.append_assoc]

/-! ### Properties of the stable descending sort -/

theorem insertByPct_perm (x : TrialMatch) :
    ∀ l : List TrialMatch, (insertByPct x l).Perm (x :: l) := by
  intro l
  induction l with
  | nil => simp [insertByPct]
  | cons y l ih =>
    by_cases h : x.matchPercentage < y.matchPercentage
    · simpa [insertByPct, h] using ((ih.cons y).trans (List.Perm.swap x y l))
    · simp [insertByPct, h]

theorem mem_insertByPct {a x : TrialMatch} {l : List TrialMatch}
    (h : a ∈ insertByPct x l) : a = x ∨ a ∈ l := by
  have := (insertByPct_perm x l).mem_iff.mp h
  simpa using this

theorem insertByPct_pairwise (x : TrialMatch) :
    ∀ l : List TrialMatch,
      l.Pairwise (fun a b => b.matchPercentage ≤ a.matchPercentage) →
      (insertByPct x l).Pairwise (fun a b => b.matchPercentage ≤ a.matchPercentage) := by
  intro l
  induction l with
  | nil => intro _; simp [insertByPct]
  | cons y l ih =>
    intro hp
    rcases List.pairwise_cons.mp hp with ⟨hy, hl⟩
    by_cases h : x.matchPercentage < y.matchPercentage
    · simp only [insertByPct, h, if_true]
      refine List.pairwise_cons.mpr ⟨?_, ih hl⟩
      intro b hb
      rcases mem_insertByPct hb with rfl | hbl
      · exact le_of_lt h
      · exact hy b hbl
    · simp only [insertByPct, h, if_false]
      refine List.pairwise_cons.mpr ⟨?_, hp⟩
      intro b hb
      rcases List.mem_cons.mp hb with rfl | hbl
      · exact not_lt.mp h
      · exact le_trans (hy b hbl) (not_lt.mp h)

theorem sortByPctDesc_perm : ∀ l : List TrialMatch, (sortByPctDesc l).Perm l := by
  intro l
  induction l with
  | nil => simp [sortByPctDesc]
  | cons x l ih =>
    exact (insertByPct_perm x (sortByPctDesc l)).trans (ih.cons x)

theorem sortByPctDesc_pairwise :
    ∀ l : List TrialMatch,
      (sortByPctDesc l).Pairwise (fun a b => b.matchPercentage ≤ a.matchPercentage) := by
  intro l
  induction l with
  | nil => simp [sortByPctDesc]
  | cons x l ih => exact insertByPct_pairwise x (sortByPctDesc l) ih

/-- Stability of the insertion step, expressed through filtering at a fixed
key value: an element with key `q` is inserted in front of the equal-key
elements it is compared against only when those have a strictly larger key,
so the equal-key subsequence is preserved. -/
theorem filter_insertByPct_of_eq (x : TrialMatch) (q : ℚ)
    (hx : x.matchPercentage = q) :
    ∀ l : List TrialMatch,
      (insertByPct x l).filter (fun a => a.matchPercentage == q) =
        x :: l.filter (fun a => a.matchPercentage == q) := by
  intro l
  induction l with
  | nil => simp [insertByPct, hx]
  | cons y l ih =>
    by_cases h : x.matchPercentage < y.matchPercentage
    · have hy : (y.matchPercentage == q) = false := by
        have : y.matchPercentage ≠ q := by
          intro he
          rw [hx, he] at h
          exact lt_irrefl _ h
        simpa using this
      simp [insertByPct, h, List.filter_cons, hy, ih]
    · have hstep : insertByPct x (y :: l) = x :: y :: l := by
        simp [insertByPct, h]
      rw [hstep]
      simp [List.filter_cons, hx]

theorem filter_insertByPct_of_ne (x : TrialMatch) (q : ℚ)
    (hx : x.matchPercentage ≠ q) :
    ∀ l : List TrialMatch,
      (insertByPct x l).filter (fun a => a.matchPercentage == q) =
        l.filter (fun a => a.matchPercentage == q) := by
  intro l
  have hx' : (x.matchPercentage == q) = false := by simpa using hx
  induction l with
  | nil => simp [insertByPct, hx']
  | cons y l ih =>
    by_cases h : x.matchPercentage < y.matchPercentage
    · simp [insertByPct, h, List.filter_cons, ih]
    · simp [insertByPct, h, List.filter_cons, hx']

/-- Stability of the whole sort: for every key value, the subsequence of
elements carrying that key is unchanged. -/
theorem sortByPctDesc_stable (q : ℚ) :
    ∀ l : List TrialMatch,
      (sortByPctDesc l).filter (fun a => a.matchPercentage == q) =
        l.filter (fun a => a.matchPercentage == q) := by
  intro l
  induction l with
  | nil => simp [sortByPctDesc]
  | cons x l ih =>
    by_cases hx : x.matchPercentage = q
    · rw [show sortByPctDesc (x :: l) = insertByPct x (sortByPctDesc l) from rfl,
        filter_insertByPct_of_eq x q hx, ih, List.filter_cons]
      simp [hx]
    · rw [show sortByPctDesc (x :: l) = insertByPct x (sortByPctDesc l) from rfl,
        filter_insertByPct_of_ne x q hx, ih, List.filter_cons]
      simp [hx]

/-! ### Concrete fixtures used by the claims -/

/-- The end-to-end patient of the specification:
age 65, female, non-small cell lung cancer, stage IV, ECOG 1, one mutation
EGFR T790M, no recorded metastases, treatments or lab values. -/
def endToEndPatient : PatientFeatures :=
  ⟨⟨some 65, "65-year-old"⟩, ⟨some "female", "female patient"⟩,
   ⟨some "non-small cell lung cancer", "diagnosed with non-small cell lung cancer"⟩,
   ⟨some "IV", "stage IV"⟩, ⟨some 1, "ECOG PS 1"⟩,
   [⟨"EGFR T790M", "positive for EGFR T790M mutation"⟩], [], [], [], ""⟩

/-- The end-to-end trial of the specification: inclusion criteria
`Age >= 18` and `ECOG performance status 0-2`, exclusion criterion
`Untreated brain metastases`. -/
def endToEndTrial : Trial :=
  ⟨"NCT0001", "Example trial", "Phase 2", "",
   [⟨"Age >= 18", ""⟩, ⟨"ECOG performance status 0-2", ""⟩],
   [⟨"Untreated brain metastases", ""⟩]⟩

/-- A patient whose only known feature is stage III. -/
def stagePatientIII : PatientFeatures :=
  ⟨⟨none, ""⟩, ⟨none, ""⟩, ⟨none, ""⟩, ⟨some "III", ""⟩, ⟨none, ""⟩, [], [], [], [], ""⟩

/-- A patient whose only known feature is stage I. -/
def stagePatientI : PatientFeatures :=
  ⟨⟨none, ""⟩, ⟨none, ""⟩, ⟨none, ""⟩, ⟨some "I", ""⟩, ⟨none, ""⟩, [], [], [], [], ""⟩

/-- A patient with no known features at all (every field absent). -/
def noGenderPatient : PatientFeatures :=
  ⟨⟨none, ""⟩, ⟨none, ""⟩, ⟨none, ""⟩, ⟨none, ""⟩, ⟨none, ""⟩, [], [], [], [], ""⟩

/-- A patient whose only known feature is gender male. -/
def malePatient : PatientFeatures :=
  ⟨⟨none, ""⟩, ⟨some "male", "male reference in text"⟩, ⟨none, ""⟩, ⟨none, ""⟩,
   ⟨none, ""⟩, [], [], [], [], ""⟩

/-- Two trial matches with equal score 80 and distinct ids, stored with the
larger id first (catalog order). -/
def tieMatchHigherId : TrialMatch := ⟨"b", "trial b", "", 80, [], [], ""⟩

def tieMatchLowerId : TrialMatch := ⟨"a", "trial a", "", 80, [], [], ""⟩

/-! ### Claim theorems -/

/-- C1.  Exclusion-criterion inversion in the aggregator: for every patient
and trial, the good count equals the number of inclusion criteria whose raw
evaluation is satisfied plus the number of exclusion criteria whose raw
evaluation is NOT satisfied; an exclusion criterion whose raw evaluation is
satisfied contributes a violation record to the unsatisfied list instead
(lowering the score percentage), and one whose raw evaluation is unsatisfied
contributes a fresh positive record to the satisfied list. -/
theorem C1_exclusion_inversion (p : PatientFeatures) (t : Trial) :
    (aggregateTrial p t).score =
      t.inclusionCriteria.countP (fun c => (check_criterion_match c p).isMatch) +
        t.exclusionCriteria.countP (fun c => !(check_criterion_match c p).isMatch) ∧
    (aggregateTrial p t).total = t.inclusionCriteria.length + t.exclusionCriteria.length ∧
    (aggregateTrial p t).nonMatchList =
      (t.inclusionCriteria.filter (fun c => !(check_criterion_match c p).isMatch)).map
          (fun c => check_criterion_match c p) ++
        (t.exclusionCriteria.filter (fun c => (check_criterion_match c p).isMatch)).map
          (fun c => ⟨c, false,
            "Patient meets exclusion criterion: " ++ (check_criterion_match c p).explanation⟩) ∧
    (aggregateTrial p t).matchList =
      (t.inclusionCriteria.filter (fun c => (check_criterion_match c p).isMatch)).map
          (fun c => check_criterion_match c p) ++
        (t.exclusionCriteria.filter (fun c => !(check_criterion_match c p).isMatch)).map
          (fun c => ⟨c, true, "Patient does not meet exclusion criterion"⟩) := by
  rw [aggregateTrial_eq]
  exact ⟨rfl, rfl, rfl, rfl⟩

/-- C2.  Score formula: when at least one criterion was evaluated the score is
the good count divided by the criteria count times 100, where the good count
is the number of satisfied inclusion criteria plus the number of non-met
exclusion criteria; and in the hybrid aggregator of the database matcher,
when no criteria were evaluated and a semantic score is present, the
percentage is the semantic score itself. -/
theorem C2_score_formula :
    (∀ (p : PatientFeatures) (t : Trial), 0 < (aggregateTrial p t).total →
      matchPercentage p t =
        ((aggregateTrial p t).score : ℚ) / ((aggregateTrial p t).total : ℚ) * 100) ∧
    (∀ (p : PatientFeatures) (t : Trial),
      (aggregateTrial p t).score =
        t.inclusionCriteria.countP (fun c => (check_criterion_match c p).isMatch) +
          t.exclusionCriteria.countP (fun c => !(check_criterion_match c p).isMatch)) ∧
    (∀ (mc cc : List Criterion) (s : ℚ), mc.length + cc.length = 0 →
      hybridMatchPercentage mc cc (some s) = s) := by
  refine ⟨?_, ?_, ?_⟩
  · intro p t h
    simp [matchPercentage, h]
  · intro p t
    rw [aggregateTrial_eq]
  · intro mc cc s h
    simp [hybridMatchPercentage, h]

/-- Witness for C2 at the end-to-end fixture (three criteria evaluated) and
at a semantic-only trial with semantic score 77. -/
theorem C2_score_formula_witness :
    matchPercentage endToEndPatient endToEndTrial =
      ((aggregateTrial endToEndPatient endToEndTrial).score : ℚ) /
        ((aggregateTrial endToEndPatient endToEndTrial).total : ℚ) * 100 ∧
    hybridMatchPercentage [] [] (some 77) = 77 :=
  ⟨C2_score_formula.1 endToEndPatient endToEndTrial (by decide),
   C2_score_formula.2.2 [] [] 77 (by decide)⟩

/-- Helper: the aggregation of the end-to-end example, computed. -/
theorem endToEnd_aggregate :
    aggregateTrial endToEndPatient endToEndTrial =
      ⟨2, 3,
       [⟨⟨"Age >= 18", ""⟩, true, "Patient age 65 meets criterion"⟩,
        ⟨⟨"Untreated brain metastases", ""⟩, true, "Patient does not meet exclusion criterion"⟩],
       [⟨⟨"ECOG performance status 0-2", ""⟩, false, "Patient ECOG 1 not specifically mentioned"⟩]⟩ := by
  decide

/-- Helper: the score of the end-to-end example is 200/3 percent. -/
theorem endToEnd_matchPercentage :
    matchPercentage endToEndPatient endToEndTrial = 200 / 3 := by
  simp [matchPercentage, endToEnd_aggregate]
  norm_num

/-- Helper: Python rounding of 200/3 to one decimal yields 66.7. -/
theorem pyRound1_twoThirds : pyRound1 ((200 : ℚ) / 3) = 667 / 10 := by
  have h3 : ((200 : ℚ) / 3) * 10 = 2000 / 3 := by norm_num
  have hfloor : ⌊(2000 : ℚ) / 3⌋ = 666 := by
    rw [Int.floor_eq_iff]
    constructor
    · norm_num
    · norm_num
  simp only [pyRound1, pyRound0, h3, hfloor]
  rw [if_neg (by norm_num), if_pos (by norm_num)]
  norm_num

/-- C3, counterexample.  On the end-to-end example the evaluator called by
the matcher leaves the criterion on ECOG performance status 0-2 unsatisfied
(its ECOG pattern expects an inequality or the word of, and the literal digit
1 does not occur in the text), so the score is not 100. -/
theorem C3_counterexample :
    (check_criterion_match ⟨"ECOG performance status 0-2", ""⟩ endToEndPatient).isMatch = false ∧
    matchPercentage endToEndPatient endToEndTrial ≠ 100 := by
  constructor
  · decide
  · rw [endToEnd_matchPercentage]
    norm_num

/-- C3, amended.  On the end-to-end example the matcher satisfies the age
criterion, leaves the ECOG criterion unsatisfied, treats the exclusion
criterion as not violated, and produces a score of 200/3 percent (66.7 after
rounding to one decimal), not 100. -/
theorem C3_amended :
    aggregateTrial endToEndPatient endToEndTrial =
      ⟨2, 3,
       [⟨⟨"Age >= 18", ""⟩, true, "Patient age 65 meets criterion"⟩,
        ⟨⟨"Untreated brain metastases", ""⟩, true, "Patient does not meet exclusion criterion"⟩],
       [⟨⟨"ECOG performance status 0-2", ""⟩, false, "Patient ECOG 1 not specifically mentioned"⟩]⟩ ∧
    matchPercentage endToEndPatient endToEndTrial = 200 / 3 ∧
    pyRound1 (matchPercentage endToEndPatient endToEndTrial) = 667 / 10 := by
  refine ⟨endToEnd_aggregate, endToEnd_matchPercentage, ?_⟩
  rw [endToEnd_matchPercentage]
  exact pyRound1_twoThirds

/-- C4, counterexample.  The criterion text
"female patients with ecog performance status 2" is matched by both the
performance detector and the gender detector and by no earlier one; under the
claimed priority (performance before gender) it would classify as
performance, but the code classifies it as gender. -/
theorem C4_counterexample :
    ecogDet (asciiLower "female patients with ecog performance status 2") (asciiLower "") = true ∧
    ageDet (asciiLower "female patients with ecog performance status 2") (asciiLower "") = false ∧
    classify "female patients with ecog performance status 2" "" = CriterionType.gender ∧
    CriterionType.gender ≠ CriterionType.performance := by
  refine ⟨by decide, by decide, by decide, by decide⟩

/-- C4, amended.  Classification is total, deterministic and first-match-wins,
but in the order age, gender, diagnosis, stage, performance, mutation,
metastasis, treatment, generic; there is no lab-value detector, so the
lab-value type is never produced and otherwise-unmatched text falls back to
generic. -/
theorem C4_amended (text ty : String) :
    (classify text ty = CriterionType.age ↔
      ageDet (asciiLower text) (asciiLower ty) = true) ∧
    (classify text ty = CriterionType.gender ↔
      (ageDet (asciiLower text) (asciiLower ty) = false ∧
       genderDet (asciiLower text) (asciiLower ty) = true)) ∧
    (classify text ty = CriterionType.diagnosis ↔
      (ageDet (asciiLower text) (asciiLower ty) = false ∧
       genderDet (asciiLower text) (asciiLower ty) = false ∧
       diagnosisDet (asciiLower text) (asciiLower ty) = true)) ∧
    (classify text ty = CriterionType.stage ↔
      (ageDet (asciiLower text) (asciiLower ty) = false ∧
       genderDet (asciiLower text) (asciiLower ty) = false ∧
       diagnosisDet (asciiLower text) (asciiLower ty) = false ∧
       stageDet (asciiLower text) (asciiLower ty) = true)) ∧
    (classify text ty = CriterionType.performance ↔
      (ageDet (asciiLower text) (asciiLower ty) = false ∧
       genderDet (asciiLower text) (asciiLower ty) = false ∧
       diagnosisDet (asciiLower text) (asciiLower ty) = false ∧
       stageDet (asciiLower text) (asciiLower ty) = false ∧
       ecogDet (asciiLower text) (asciiLower ty) = true)) ∧
    (classify text ty = CriterionType.mutation ↔
      (ageDet (asciiLower text) (asciiLower ty) = false ∧
       genderDet (asciiLower text) (asciiLower ty) = false ∧
       diagnosisDet (asciiLower text) (asciiLower ty) = false ∧
       stageDet (asciiLower text) (asciiLower ty) = false ∧
       ecogDet (asciiLower text) (asciiLower ty) = false ∧
       mutationDet (asciiLower text) (asciiLower ty) = true)) ∧
    (classify text ty = CriterionType.metastasis ↔
      (ageDet (asciiLower text) (asciiLower ty) = false ∧
       genderDet (asciiLower text) (asciiLower ty) = false ∧
       diagnosisDet (asciiLower text) (asciiLower ty) = false ∧
       stageDet (asciiLower text) (asciiLower ty) = false ∧
       ecogDet (asciiLower text) (asciiLower ty) = false ∧
       mutationDet (asciiLower text) (asciiLower ty) = false ∧
       metastasisDet (asciiLower text) (asciiLower ty) = true)) ∧
    (classify text ty = CriterionType.treatment ↔
      (ageDet (asciiLower text) (asciiLower ty) = false ∧
       genderDet (asciiLower text) (asciiLower ty) = false ∧
       diagnosisDet (asciiLower text) (asciiLower ty) = false ∧
       stageDet (asciiLower text) (asciiLower ty) = false ∧
       ecogDet (asciiLower text) (asciiLower ty) = false ∧
       mutationDet (asciiLower text) (asciiLower ty) = false ∧
       metastasisDet (asciiLower text) (asciiLower ty) = false ∧
       treatmentDet (asciiLower text) (asciiLower ty) = true)) ∧
    (classify text ty = CriterionType.generic ↔
      (ageDet (asciiLower text) (asciiLower ty) = false ∧
       genderDet (asciiLower text) (asciiLower ty) = false ∧
       diagnosisDet (asciiLower text) (asciiLower ty) = false ∧
       stageDet (asciiLower text) (asciiLower ty) = false ∧
       ecogDet (asciiLower text) (asciiLower ty) = false ∧
       mutationDet (asciiLower text) (asciiLower ty) = false ∧
       metastasisDet (asciiLower text) (asciiLower ty) = false ∧
       treatmentDet (asciiLower text) (asciiLower ty) = false)) ∧
    classify text ty ≠ CriterionType.labValue := by
  simp only [classify]
  split_ifs with h1 h2 h3 h4 h5 h6 h7 h8 <;> simp_all

/-- C5, counterexample.  For the criterion text on a stage II to IV range the
evaluator cited by the claim performs a plain substring test: stage III
yields an UNSATISFIED result (the string iii does not occur in the lowercased
criterion text) while stage I yields a SATISFIED result (the string i does
occur), the exact opposite of the claim. -/
theorem C5_counterexample :
    (check_criterion_match ⟨"Stage II–IV", ""⟩ stagePatientIII).isMatch = false ∧
    (check_criterion_match ⟨"Stage II–IV", ""⟩ stagePatientI).isMatch = true := by
  refine ⟨by decide, by decide⟩

/-- C5, amended.  The utils evaluator tests the lowercased patient stage as a
substring of the criterion text, so stage III is unsatisfied and stage I is
satisfied on the range criterion; the Roman-numeral range logic the claim
describes exists only in the routes evaluator (used by the database matcher),
where stage III is satisfied (within the range II-IV) and stage I is
unsatisfied. -/
theorem C5_amended :
    check_criterion_match ⟨"Stage II–IV", ""⟩ stagePatientIII =
      ⟨⟨"Stage II–IV", ""⟩, false, "Patient stage III not mentioned in criterion"⟩ ∧
    check_criterion_match ⟨"Stage II–IV", ""⟩ stagePatientI =
      ⟨⟨"Stage II–IV", ""⟩, true, "Patient stage I matches criterion"⟩ ∧
    routes_check_criterion_match ⟨"Stage II–IV", ""⟩ stagePatientIII =
      ⟨⟨"Stage II–IV", ""⟩, true, "Patient stage III is within the range II-IV"⟩ ∧
    routes_check_criterion_match ⟨"Stage II–IV", ""⟩ stagePatientI =
      ⟨⟨"Stage II–IV", ""⟩, false, "Patient stage I is outside the range II-IV"⟩ := by
  refine ⟨by decide, by decide, by decide, by decide⟩

/-- C6, counterexample.  Two matches with equal score 80 and ids b and a,
stored in that catalog order, stay in that order after ranking: the sort is
stable and does NOT break ties by trial id (an id tie-break would put a
first). -/
theorem C6_counterexample :
    (sortByPctDesc [tieMatchHigherId, tieMatchLowerId]).map TrialMatch.trialId = ["b", "a"] ∧
    tieMatchHigherId.matchPercentage = tieMatchLowerId.matchPercentage ∧
    tieMatchHigherId.trialId ≠ tieMatchLowerId.trialId ∧
    (["b", "a"] : List String) ≠ ["a", "b"] := by
  refine ⟨by decide, by decide, by decide, by decide⟩

/-- C6, amended.  The ranker output is sorted by the match percentage
descending, is a permutation of its input, and is stable: for every score
value the subsequence of matches carrying that score is exactly the input
subsequence, so ties keep the catalog order rather than being re-ordered by
trial id. -/
theorem C6_amended (l : List TrialMatch) :
    (sortByPctDesc l).Pairwise (fun a b => b.matchPercentage ≤ a.matchPercentage) ∧
    (sortByPctDesc l).Perm l ∧
    ∀ q : ℚ, (sortByPctDesc l).filter (fun a => a.matchPercentage == q) =
      l.filter (fun a => a.matchPercentage == q) :=
  ⟨sortByPctDesc_pairwise l, sortByPctDesc_perm l, fun q => sortByPctDesc_stable q l⟩

/-- C7, counterexample.  A criterion needing the absent gender field yields
an unsatisfied result whose explanation is "Patient gender unknown", which is
not the literal string "unknown" the claim specifies. -/
theorem C7_counterexample :
    check_criterion_match ⟨"female patients only", ""⟩ noGenderPatient =
      ⟨⟨"female patients only", ""⟩, false, "Patient gender unknown"⟩ ∧
    (check_criterion_match ⟨"female patients only", ""⟩ noGenderPatient).explanation ≠
      "unknown" := by
  refine ⟨by decide, by decide⟩

/-- C7, amended.  Evaluation never throws on missing data: whenever the
branch selected for a criterion needs a scalar profile field that is absent,
the evaluator returns an unsatisfied result with the field-specific
explanation ("Patient age unknown", "Patient gender unknown",
"Patient diagnosis unknown", "Patient stage unknown" or
"Patient ECOG status unknown" - each containing but not equal to the word
unknown), distinct from the explicit-mismatch explanations. -/
theorem C7_amended (text ty : String) (p : PatientFeatures) :
    (ageDet (asciiLower text) (asciiLower ty) = true → p.age.value = none →
      check_criterion_match ⟨text, ty⟩ p =
        ⟨⟨text, ty⟩, false, "Patient age unknown"⟩) ∧
    (ageDet (asciiLower text) (asciiLower ty) = false →
      genderDet (asciiLower text) (asciiLower ty) = true → p.gender.value = none →
      check_criterion_match ⟨text, ty⟩ p =
        ⟨⟨text, ty⟩, false, "Patient gender unknown"⟩) ∧
    (ageDet (asciiLower text) (asciiLower ty) = false →
      genderDet (asciiLower text) (asciiLower ty) = false →
      diagnosisDet (asciiLower text) (asciiLower ty) = true → p.diagnosis.value = none →
      check_criterion_match ⟨text, ty⟩ p =
        ⟨⟨text, ty⟩, false, "Patient diagnosis unknown"⟩) ∧
    (ageDet (asciiLower text) (asciiLower ty) = false →
      genderDet (asciiLower text) (asciiLower ty) = false →
      diagnosisDet (asciiLower text) (asciiLower ty) = false →
      stageDet (asciiLower text) (asciiLower ty) = true → p.stage.value = none →
      check_criterion_match ⟨text, ty⟩ p =
        ⟨⟨text, ty⟩, false, "Patient stage unknown"⟩) ∧
    (ageDet (asciiLower text) (asciiLower ty) = false →
      genderDet (asciiLower text) (asciiLower ty) = false →
      diagnosisDet (asciiLower text) (asciiLower ty) = false →
      stageDet (asciiLower text) (asciiLower ty) = false →
      ecogDet (asciiLower text) (asciiLower ty) = true → p.ecog.value = none →
      check_criterion_match ⟨text, ty⟩ p =
        ⟨⟨text, ty⟩, false, "Patient ECOG status unknown"⟩) := by
  refine ⟨?_, ?_, ?_, ?_, ?_⟩
  · intro h1 hv
    simp [check_criterion_match, h1, ageEvalUtils, hv]
  · intro h1 h2 hv
    simp [check_criterion_match, h1, h2, genderEvalUtils, hv]
  · intro h1 h2 h3 hv
    simp [check_criterion_match, h1, h2, h3, diagnosisEvalUtils, hv]
  · intro h1 h2 h3 h4 hv
    simp [check_criterion_match, h1, h2, h3, h4, stageEvalUtils, hv]
  · intro h1 h2 h3 h4 h5 hv
    simp [check_criterion_match, h1, h2, h3, h4, h5, ecogEvalUtils, hv]

/-- Witness for C7: the unknown-gender scenario of the claim. -/
theorem C7_amended_witness :
    ageDet (asciiLower "female patients only") (asciiLower "") = false ∧
    genderDet (asciiLower "female patients only") (asciiLower "") = true ∧
    check_criterion_match ⟨"female patients only", ""⟩ noGenderPatient =
      ⟨⟨"female patients only", ""⟩, false, "Patient gender unknown"⟩ :=
  ⟨by decide, by decide,
   (C7_amended "female patients only" "" noGenderPatient).2.1 (by decide) (by decide) rfl⟩

set_option maxRecDepth 8000 in
/-- C8, counterexample.  The generic branch of the evaluator cited by the
claim is keyword matching, not automatic satisfaction: the generic criterion
"zzzz qqqq" is UNSATISFIED against the end-to-end patient because neither
word occurs in the serialized features. -/
theorem C8_counterexample :
    classify "zzzz qqqq" "" = CriterionType.generic ∧
    (check_criterion_match ⟨"zzzz qqqq", ""⟩ endToEndPatient).isMatch = false := by
  refine ⟨by decide, by decide⟩

/-- C8, amended.  In the utils evaluator a generic criterion is satisfied
exactly when one of its words of length at least 4 occurs in the lowercased
JSON dump of the patient features; the satisfied-by-default behavior the
claim describes holds only in the routes evaluator (used by the database
matcher), whose final branch marks every otherwise-unclassified criterion as
matching regardless of the profile. -/
theorem C8_amended :
    (∀ (text ty : String) (p : PatientFeatures),
      classify text ty = CriterionType.generic →
        ((check_criterion_match ⟨text, ty⟩ p).isMatch = true ↔
          ∃ term ∈ keyTerms (asciiLower text), containsStr (patientText p) term = true)) ∧
    (∀ (text ty : String) (p : PatientFeatures),
      ageDet (asciiLower text) (asciiLower ty) = false →
      genderDet (asciiLower text) (asciiLower ty) = false →
      diagnosisDetR (asciiLower text) (asciiLower ty) = false →
      stageDet (asciiLower text) (asciiLower ty) = false →
      perfDetR (asciiLower text) (asciiLower ty) = false →
      mutationDetR (asciiLower text) (asciiLower ty) = false →
      metastasisDetR (asciiLower text) (asciiLower ty) = false →
      treatmentDetR (asciiLower text) (asciiLower ty) = false →
        routes_check_criterion_match ⟨text, ty⟩ p =
          ⟨⟨text, ty⟩, true, "Criterion assumed to match (general criterion)"⟩) := by
  constructor
  · intro text ty p h
    rw [check_eq_genericEval ⟨text, ty⟩ p h]
    exact genericEval_isMatch_iff ⟨text, ty⟩ (asciiLower text) p
  · intro text ty p h1 h2 h3 h4 h5 h6 h7 h8
    simp [routes_check_criterion_match, h1, h2, h3, h4, h5, h6, h7, h8]

/-- Witness for C8 at the criterion "zzzz qqqq" against the end-to-end
patient, in both evaluators. -/
theorem C8_amended_witness :
    ((check_criterion_match ⟨"zzzz qqqq", ""⟩ endToEndPatient).isMatch = true ↔
      ∃ term ∈ keyTerms (asciiLower "zzzz qqqq"),
        containsStr (patientText endToEndPatient) term = true) ∧
    routes_check_criterion_match ⟨"zzzz qqqq", ""⟩ endToEndPatient =
      ⟨⟨"zzzz qqqq", ""⟩, true, "Criterion assumed to match (general criterion)"⟩ :=
  ⟨C8_amended.1 "zzzz qqqq" "" endToEndPatient (by decide),
   C8_amended.2 "zzzz qqqq" "" endToEndPatient (by decide) (by decide) (by decide)
     (by decide) (by decide) (by decide) (by decide) (by decide)⟩

/-- C10.  Substring gender matching: whenever the criterion text contains
the word female, the gender branch is selected and the patient gender is
known to be male, the evaluator reports a satisfied result
("Patient is male as required"), because male is tested as a plain substring
of the lowercased criterion text and female contains male. -/
theorem C10_female_text_matches_male (text ty : String) (p : PatientFeatures) (gv : String)
    (hfem : containsStr (asciiLower text) "female" = true)
    (hage : ageDet (asciiLower text) (asciiLower ty) = false)
    (hgen : genderDet (asciiLower text) (asciiLower ty) = true)
    (hg : p.gender.value = some gv)
    (hmale : asciiLower gv = "male") :
    check_criterion_match ⟨text, ty⟩ p =
      ⟨⟨text, ty⟩, true, "Patient is male as required"⟩ := by
  have hmale2 : containsStr (asciiLower text) "male" = true :=
    contains_male_of_contains_female _ hfem
  simp [check_criterion_match, hage, hgen, genderEvalUtils, hg, hmale, hmale2]

/-- Witness for C10: the criterion "female patients only" satisfied by a male
patient. -/
theorem C10_female_text_matches_male_witness :
    containsStr (asciiLower "female patients only") "female" = true ∧
    check_criterion_match ⟨"female patients only", ""⟩ malePatient =
      ⟨⟨"female patients only", ""⟩, true, "Patient is male as required"⟩ :=
  ⟨by decide,
   C10_female_text_matches_male "female patients only" "" malePatient "male"
     (by decide) (by decide) (by decide) rfl (by decide)⟩

end MedMatch
